import Mathlib

/-!
Verification development for the greek-courier-tracker HACS integration
(`custom_components/greek_courier_tracker`).

The Python source is shallowly embedded: every stateless helper becomes a
Lean function over `String`/`List`, each courier adapter's `track` becomes a
total function from an explicit model of the network layer's behaviour
(HTTP status + parsed payload, client error, or other raised exception) to a
`TrackingResult`, and the retry/sweep orchestrator is a function of the
per-attempt outcome stream.  Machinery that can raise in Python is modelled
with `Except String`.

Python string operations are modelled over the code-point list `String.data`
(`str.lower`/`str.upper` are mapped to the ASCII `Char.toLower`/`Char.toUpper`;
Python additionally folds non-ASCII letters, which none of the proved
properties depend on — both sides of every comparison go through the same
folding function).
-/

/-! ## Models of the Python string primitives -/

/-- Model of Python `needle in hay` (substring test) on char lists. -/
def pyInL (needle : List Char) : List Char → Bool
  | [] => needle.isEmpty
  | c :: rest => needle.isPrefixOf (c :: rest) || pyInL needle rest

/-- Model of Python `needle in hay` for strings. -/
def pyIn (needle hay : String) : Bool := pyInL needle.data hay.data

/-- Model of Python `str.lower()` (ASCII folding; see header note). -/
def pyLower (s : String) : String := String.mk (s.data.map Char.toLower)

/-- Model of Python `str.upper()` (ASCII folding; see header note). -/
def pyUpper (s : String) : String := String.mk (s.data.map Char.toUpper)

/-- Strip leading and trailing whitespace from a char list. -/
def pyStripL (l : List Char) : List Char :=
  ((l.dropWhile Char.isWhitespace).reverse.dropWhile Char.isWhitespace).reverse

/-- Model of Python `str.strip()`. -/
def pyStrip (s : String) : String := String.mk (pyStripL s.data)

/-- Model of Python slicing `s[:n]` (by code points). -/
def pyTake (s : String) (n : Nat) : String := String.mk (s.data.take n)

/-- Fuel-driven worker for `pySplit`; `acc` holds the current chunk reversed. -/
def pySplitFuel (sep : List Char) : Nat → List Char → List Char → List (List Char)
  | 0, acc, l => [acc.reverse ++ l]
  | _ + 1, acc, [] => [acc.reverse]
  | fuel + 1, acc, c :: rest =>
    if sep.isPrefixOf (c :: rest) then
      acc.reverse :: pySplitFuel sep fuel [] (rest.drop (sep.length - 1))
    else
      pySplitFuel sep fuel (c :: acc) rest

/-- Model of Python `s.split(sep)` for a non-empty separator. -/
def pySplit (s sep : String) : List String :=
  (pySplitFuel sep.data (s.data.length + 1) [] s.data).map String.mk

/-! ## Data model (`couriers/base.py`) -/

/-- `TrackingEvent` from `couriers/base.py`: one checkpoint of a shipment. -/
structure TrackingEvent where
  date : String
  time : Option String
  location : String
  status : String
  status_translated : Option String := none

/-! JSON payload models.  Each adapter reads its payload with `dict.get`
with a default; a field whose Python default is used on absence is modelled
directly with that default value (JSON `null`s and other unexpected value
types are outside the model). -/

/-- One event object of the ELTA JSON response. -/
structure EltaEventJson where
  date : String := ""
  time : String := ""
  place : String := ""
  status : String := ""

/-- The inner `"result"` field of an ELTA per-tracking-number entry: either a
list of event objects (`status == 1`), a message text (`status == 2`), or
absent. -/
inductive EltaInnerResult where
  | missing
  | text (s : String)
  | evts (l : List EltaEventJson)

/-- One per-tracking-number entry of the ELTA response. -/
structure EltaEntry where
  status : Option Int := none
  result : EltaInnerResult := .missing

/-- The outer `"result"` field of the ELTA response: an error text when the
outer `status` is not 1, or a table keyed by tracking number. -/
inductive EltaOuterResult where
  | missing
  | text (s : String)
  | table (entries : List (String × EltaEntry))

/-- The ELTA `track.php` JSON response. -/
structure EltaPayload where
  status : Option Int := none
  result : EltaOuterResult := .missing

/-- One `statusHistory` event of the ACS JSON response. -/
structure AcsEventJson where
  controlPointDate : String := ""
  controlPoint : String := ""
  description : String := ""

/-- One `items` entry of the ACS JSON response. -/
structure AcsItem where
  statusHistory : List AcsEventJson := []
  isDelivered : Bool := false

/-- The ACS parcel-search JSON response. -/
structure AcsPayload where
  items : List AcsItem := []

/-- One `events` entry of the Box Now JSON response. -/
structure BoxEventJson where
  createTime : String := ""
  locationDisplayName : String := ""
  type : String := ""

/-- One parcel of the Box Now JSON response. -/
structure BoxParcel where
  events : List BoxEventJson := []
  state : String := ""

/-- The Box Now `parcels:track` JSON response. -/
structure BoxPayload where
  data : List BoxParcel := []

/-- The data extracted from the Geniki HTML page by BeautifulSoup: whether a
`div.empty-text` marker exists, and the raw `.text` of the four sub-elements
of each `div.tracking-checkpoint` (absent element ⇒ `none`). -/
structure GenikiCheckpoint where
  status : Option String := none
  location : Option String := none
  date : Option String := none
  time : Option String := none

/-- Parsed representation of the Geniki HTML document. -/
structure GenikiDoc where
  hasEmptyText : Bool := false
  checkpoints : List GenikiCheckpoint := []

/-- One `div.timeline-card` of the SpeedEx HTML page. -/
structure SpeedexCard where
  title : Option String := none
  info : Option String := none

/-- Parsed representation of the SpeedEx HTML document. -/
structure SpeedexDoc where
  hasAlertWarning : Bool := false
  cards : List SpeedexCard := []

/-- One `div.tr` row of the Courier Center HTML page. -/
structure CCRow where
  date : Option String := none
  time : Option String := none
  area : Option String := none
  action : Option String := none

/-- Parsed representation of the Courier Center HTML document. -/
structure CCDoc where
  hasError : Bool := false
  rows : List CCRow := []
  statusText : Option String := none

/-- The opaque `raw_data` diagnostic payload attached by the JSON adapters. -/
inductive RawData where
  | elta (p : EltaPayload)
  | acs (p : AcsPayload)
  | boxnow (p : BoxPayload)

/-- `TrackingResult` from `couriers/base.py`: the outcome of one tracking
attempt.  The Python dataclass defaults are the Lean field defaults. -/
structure TrackingResult where
  success : Bool
  tracking_number : String
  courier : String
  courier_name : String
  status : String
  status_category : String
  events : List TrackingEvent
  latest_event : Option TrackingEvent := none
  error_message : Option String := none
  raw_data : Option RawData := none

/-! ## Status normalizer (`BaseCourier.translate_status` and
`BaseCourier.get_status_category` in `couriers/base.py`) -/

/-- Guard of the first (exact, case-insensitive) loop of `translate_status`. -/
def exactHit (statusLower : String) (p : String × String) : Bool :=
  pyLower p.1 == statusLower

/-- Guard of the second (bidirectional substring) loop of `translate_status`. -/
def partialHit (statusLower : String) (p : String × String) : Bool :=
  pyIn (pyLower p.1) statusLower || pyIn statusLower (pyLower p.1)

/-- `BaseCourier.translate_status`: exact case-insensitive match first, then
bidirectional substring match, else the input unchanged.  The translation
dict is modelled as an association list in insertion order (Python dicts
iterate in insertion order). -/
def translate_status (status : String) (translations : List (String × String)) : String :=
  let statusLower := pyLower status
  match translations.find? (exactHit statusLower) with
  | some p => p.2
  | none =>
    match translations.find? (partialHit statusLower) with
    | some p => p.2
    | none => status

/-- Keyword test of `get_status_category`: `keyword.lower() in status_lower`. -/
def kwHit (statusLower : String) (keyword : String) : Bool :=
  pyIn (pyLower keyword) statusLower

/-- `BaseCourier.get_status_category`: delivered keywords first, then
in-transit, then created; `"unknown"` when none match. -/
def get_status_category (status : String) (delivered inTransit created : List String) : String :=
  let statusLower := pyLower status
  if delivered.any (kwHit statusLower) then "delivered"
  else if inTransit.any (kwHit statusLower) then "in_transit"
  else if created.any (kwHit statusLower) then "created"
  else "unknown"

/-! ## Per-adapter translation tables -/

/-- `ELTACourier.STATUS_TRANSLATIONS` (`couriers/elta.py`). -/
def ELTA_STATUS_TRANSLATIONS : List (String × String) :=
  [("Αποστολή παραδόθηκε", "Delivered"),
   ("Αποστολή παραδόθηκε σε", "Delivered to"),
   ("Αποστολή βρίσκεται σε στάδιο μεταφοράς", "In Transit"),
   ("Δημιουργία ΣΥ.ΔΕ.ΤΑ.", "Shipment Created"),
   ("Παραλαβή από", "Picked up by")]

/-- `ACSCourier.STATUS_TRANSLATIONS` (`couriers/acs.py`). -/
def ACS_STATUS_TRANSLATIONS : List (String × String) :=
  [("Η αποστολή παρελήφθη", "Shipment Received"),
   ("Η αποστολή παραδόθηκε", "Delivered"),
   ("Η αποστολή βρίσκεται σε διάκριση", "In Transit"),
   ("Η αποστολή δεν βρέθηκε", "Not Found")]

/-- `BoxNowCourier.EVENT_TRANSLATIONS` (`couriers/boxnow.py`). -/
def BOX_EVENT_TRANSLATIONS : List (String × String) :=
  [("new", "New Order"),
   ("in-depot", "In Depot"),
   ("final-destination", "At Destination Locker"),
   ("delivered", "Delivered"),
   ("expired", "Expired"),
   ("returned", "Returned")]

/-- `GenikiCourier.STATUS_TRANSLATIONS` (`couriers/geniki.py`). -/
def GENIKI_STATUS_TRANSLATIONS : List (String × String) :=
  [("ΠΑΡΑΔΟΣΗ", "Delivered"),
   ("ΜΕΤΑΦΟΡΑ", "In Transit"),
   ("ΠΑΡΑΛΑΒΗ", "Picked Up"),
   ("ΚΡΑΤΗΣΗ", "Held"),
   ("ΕΠΙΣΤΡΟΦΗ", "Returned")]

/-- `SpeedExCourier.STATUS_TRANSLATIONS` (`couriers/speedex.py`). -/
def SPEEDEX_STATUS_TRANSLATIONS : List (String × String) :=
  [("Η ΑΠΟΣΤΟΛΗ ΠΑΡΑΔΟΘΗΚΕ", "Delivered"),
   ("ΣΕ ΜΕΤΑΦΟΡΑ", "In Transit"),
   ("ΠΑΡΑΛΑΒΗ", "Picked Up"),
   ("ΑΠΟΣΤΟΛΗ", "Shipped")]

/-- `CourierCenterCourier.STATUS_TRANSLATIONS` (`couriers/courier_center.py`). -/
def CC_STATUS_TRANSLATIONS : List (String × String) :=
  [("DeliveryCompleted", "Delivered"),
   ("InTransit", "In Transit"),
   ("Received", "Received"),
   ("OutForDelivery", "Out for Delivery")]

/-- Model of Python `dict.get(key, key)` on a translation table (used by
Box Now for event types and parcel state). -/
def tableGetD (table : List (String × String)) (key : String) : String :=
  match table.find? (fun p => p.1 == key) with
  | some p => p.2
  | none => key

/-! ## Tracking-number pattern models

The regexes of `const.py` (`TRACKING_PATTERNS`) and of the per-adapter
`PATTERNS` constants are simple anchored shapes (literal prefix/suffix plus
digit / `[A-Z]` runs); each is modelled as an explicit predicate on the
code-point list.  `\d` / `[A-Z]` are modelled as ASCII classes (Python `\d`
also accepts non-ASCII digits; tracking numbers are ASCII). -/

/-- All characters are ASCII digits. -/
def allDigit (l : List Char) : Bool := l.all Char.isDigit

/-- All characters are in the `[A-Z]` class. -/
def allUpperAZ (l : List Char) : Bool := l.all (fun c => 'A' ≤ c && c ≤ 'Z')

/-- Model of `^\d{lo,hi}$`. -/
def patDigits (lo hi : Nat) (s : String) : Bool :=
  let cs := s.data
  decide (lo ≤ cs.length) && decide (cs.length ≤ hi) && allDigit cs

/-- Model of `^PRE\d{lo,hi}$` for a literal prefix. -/
def patPreDigits (pre : String) (lo hi : Nat) (s : String) : Bool :=
  let cs := s.data
  let p := pre.data
  let rest := cs.drop p.length
  (cs.take p.length == p) && allDigit rest
    && decide (lo ≤ rest.length) && decide (rest.length ≤ hi)

/-- Model of `^SE\d{9}GR$`. -/
def pat_SE9GR (s : String) : Bool :=
  let cs := s.data
  cs.length == 13 && cs.take 2 == ['S', 'E'] && allDigit ((cs.drop 2).take 9)
    && cs.drop 11 == ['G', 'R']

/-- Model of `^EL\d{9}GR$`. -/
def pat_EL9GR (s : String) : Bool :=
  let cs := s.data
  cs.length == 13 && cs.take 2 == ['E', 'L'] && allDigit ((cs.drop 2).take 9)
    && cs.drop 11 == ['G', 'R']

/-- Model of `^[A-Z]{2}\d{9}GR$`. -/
def pat_2L9GR (s : String) : Bool :=
  let cs := s.data
  cs.length == 13 && allUpperAZ (cs.take 2) && allDigit ((cs.drop 2).take 9)
    && cs.drop 11 == ['G', 'R']

/-- Model of `^GR\d{9}[A-Z]{2}$`. -/
def pat_GR9_2L (s : String) : Bool :=
  let cs := s.data
  cs.length == 13 && cs.take 2 == ['G', 'R'] && allDigit ((cs.drop 2).take 9)
    && allUpperAZ (cs.drop 11)

/-- Model of `^[A-Z]{2}\d{lo,hi}$`. -/
def pat_2LDigits (lo hi : Nat) (s : String) : Bool :=
  let cs := s.data
  let rest := cs.drop 2
  (cs.take 2).length == 2 && allUpperAZ (cs.take 2) && allDigit rest
    && decide (lo ≤ rest.length) && decide (rest.length ≤ hi)

/-- Model of `^\d{9}[A-Z]{2}$`. -/
def pat_9D2L (s : String) : Bool :=
  let cs := s.data
  cs.length == 11 && allDigit (cs.take 9) && allUpperAZ (cs.drop 9)

/-! `matches_tracking_number` is declared `@abstractmethod` on `BaseCourier`
but only `ELTACourier` (`elta.py`) and `BoxNowCourier` (`boxnow.py`) override
it; the other four adapter classes leave it abstract. -/

/-- Body of `ELTACourier.matches_tracking_number` after its own
`strip().upper()` normalization: any of the four `PATTERNS` of `elta.py`. -/
def elta_matches_normalized (tn : String) : Bool :=
  pat_SE9GR tn || pat_EL9GR tn || pat_GR9_2L tn || pat_2L9GR tn

/-- `ELTACourier.matches_tracking_number` (`couriers/elta.py`). -/
def eltaMatchesTrackingNumber (s : String) : Bool :=
  elta_matches_normalized (pyUpper (pyStrip s))

/-- Body of `BoxNowCourier.matches_tracking_number` after normalization: only
the `^BN\d{8,10}$` shape is tested; the method deliberately returns `False`
for bare digit strings (its `PATTERNS` constant nevertheless lists
`^\d{10}$`). -/
def boxnow_matches_normalized (tn : String) : Bool :=
  patPreDigits "BN" 8 10 tn

/-- `BoxNowCourier.matches_tracking_number` (`couriers/boxnow.py`). -/
def boxnowMatchesTrackingNumber (s : String) : Bool :=
  boxnow_matches_normalized (pyUpper (pyStrip s))

/-! The `PATTERNS` class constants declared in the adapter modules. -/

/-- `ACSCourier.PATTERNS` = `[^\d{10}$]`. -/
def acsClassPatterns (s : String) : Bool := patDigits 10 10 s

/-- `BoxNowCourier.PATTERNS` = `[^BN\d{8,10}$, ^\d{10}$]`. -/
def boxnowClassPatterns (s : String) : Bool :=
  patPreDigits "BN" 8 10 s || patDigits 10 10 s

/-- `GenikiCourier.PATTERNS` = `[^\d{10,12}$]`. -/
def genikiClassPatterns (s : String) : Bool := patDigits 10 12 s

/-- `CourierCenterCourier.PATTERNS` = `[^\d{10,12}$]`. -/
def ccClassPatterns (s : String) : Bool := patDigits 10 12 s

/-- `SpeedExCourier.PATTERNS` = `[^\d{12}$, ^\d{9}[A-Z]{2}$]`. -/
def speedexClassPatterns (s : String) : Bool := patDigits 12 12 s || pat_9D2L s

/-- `ELTACourier.PATTERNS` (the four ELTA shapes). -/
def eltaClassPatterns (s : String) : Bool := elta_matches_normalized s

/-! `TRACKING_PATTERNS` from `const.py` (in dict insertion order:
elta, acs, geniki, speedex, courier_center, box_now). -/

/-- `TRACKING_PATTERNS[elta]`. -/
def eltaTrackingPatterns (s : String) : Bool := pat_2L9GR s || pat_GR9_2L s

/-- `TRACKING_PATTERNS[acs]`. -/
def acsTrackingPatterns (s : String) : Bool := patDigits 10 10 s

/-- `TRACKING_PATTERNS[geniki]`. -/
def genikiTrackingPatterns (s : String) : Bool :=
  pat_2LDigits 9 11 s || patDigits 10 12 s

/-- `TRACKING_PATTERNS[speedex]`. -/
def speedexTrackingPatterns (s : String) : Bool :=
  patPreDigits "SP" 8 10 s || patDigits 12 12 s || pat_9D2L s

/-- `TRACKING_PATTERNS[courier_center]`. -/
def ccTrackingPatterns (s : String) : Bool :=
  patPreDigits "CC" 8 10 s || patDigits 10 12 s

/-- `TRACKING_PATTERNS[box_now]`. -/
def boxnowTrackingPatterns (s : String) : Bool := patPreDigits "BN" 8 10 s

/-- The courier codes whose `TRACKING_PATTERNS` entry matches the given
(already canonical) tracking-number text, in table order. -/
def couriersMatching (s : String) : List String :=
  (([("elta", eltaTrackingPatterns s), ("acs", acsTrackingPatterns s),
     ("geniki", genikiTrackingPatterns s), ("speedex", speedexTrackingPatterns s),
     ("courier_center", ccTrackingPatterns s), ("box_now", boxnowTrackingPatterns s)]
    : List (String × Bool)).filter (fun p => p.2)).map Prod.fst

/-- `detect_courier` from `tests/test_standalone.py`: a fixed if-chain of
regex tests on the stripped, upper-cased input. -/
def detect_courier (tracking_number : String) : Option String :=
  let tn := pyUpper (pyStrip tracking_number)
  if patPreDigits "BN" 8 10 tn then some "box_now"
  else if patPreDigits "CC" 8 10 tn then some "courier_center"
  else if patPreDigits "SP" 8 10 tn then some "speedex"
  else if pat_SE9GR tn || pat_EL9GR tn then some "elta"
  else if patDigits 10 10 tn then some "acs"
  else none

/-! ## Shared result constructors and the network-behaviour model -/

/-- An error `TrackingResult` as built in every adapter failure branch. -/
def mkErrorResult (code name tn msg : String) : TrackingResult :=
  { success := false, tracking_number := tn, courier := code, courier_name := name,
    status := "Error", status_category := "error", events := [],
    error_message := some msg }

/-- The non-2xx branch of every adapter (`f"HTTP error: {response.status}"`). -/
def mkHttpErrorResult (code name tn : String) (st : Nat) : TrackingResult :=
  mkErrorResult code name tn ("HTTP error: " ++ toString st)

/-- The explicit not-found `TrackingResult` of every adapter. -/
def mkNotFoundResult (code name tn : String) : TrackingResult :=
  { success := true, tracking_number := tn, courier := code, courier_name := name,
    status := "Not Found", status_category := "unknown", events := [] }

/-- Behaviour of one HTTP round trip: a completed response with status code
and parsed payload, an `aiohttp.ClientError`, or any other raised exception
(timeout, malformed body, ...) with its rendered message. -/
inductive HttpOutcome (π : Type) where
  | ok (status : Nat) (payload : π)
  | clientError (msg : String)
  | exn (msg : String)

/-- The common `track` skeleton of the single-request adapters: parse on
HTTP 200, `"HTTP error: .."` otherwise, and the two `except` clauses mapped
to error results (`str(err)` and `f"Unexpected error: {err}"`). -/
def httpTrack {π : Type} (code name tn : String) (parse : π → TrackingResult)
    (b : HttpOutcome π) : TrackingResult :=
  match b with
  | .ok st payload => if st == 200 then parse payload else mkHttpErrorResult code name tn st
  | .clientError m => mkErrorResult code name tn m
  | .exn m => mkErrorResult code name tn ("Unexpected error: " ++ m)

/-! ## ELTA adapter (`couriers/elta.py`) -/

/-- Rendering of `data.get("result", "Unknown error")` in the outer error
branch.  (With a dict in the field Python stores the dict object itself in
`error_message`; it is rendered opaquely here, and no claim depends on it.) -/
def eltaOuterErrorText : EltaOuterResult → String
  | .missing => "Unknown error"
  | .text s => s
  | .table _ => "unmodeled non-string payload"

/-- Rendering of `tracking_data.get("result", "Message")` in the
`status == 2` branch (same opaque rendering note as above). -/
def eltaInnerStatusText : EltaInnerResult → String
  | .missing => "Message"
  | .text s => s
  | .evts _ => "unmodeled non-string payload"

/-- The `status == 1` event-building branch of `ELTACourier._parse_response`. -/
def eltaEventsResult (tn : String) (d : EltaPayload) (l : List EltaEventJson) : TrackingResult :=
  let events := l.map (fun e =>
    { date := e.date, time := some e.time, location := e.place, status := e.status,
      status_translated := some (translate_status e.status ELTA_STATUS_TRANSLATIONS)
      : TrackingEvent })
  let latest := events.head?
  let status := match latest with
    | some ev => ev.status_translated.getD ""
    | none => "Unknown"
  let category := get_status_category status
    ["παραδόθηκε", "delivered"] ["μεταφοράς", "transit"] ["δημιουργία", "created", "συ.δε.τα."]
  { success := true, tracking_number := tn, courier := "elta", courier_name := "ELTA Courier",
    status := status, status_category := category, events := events, latest_event := latest,
    raw_data := some (.elta d) }

/-- `ELTACourier._parse_response`.  When the outer `result` is a string and
the code calls `.get` on it, Python raises `AttributeError`, which `track`
catches in its generic handler; those paths yield the corresponding
`Unexpected error` result directly. -/
def eltaParse (tn : String) (d : EltaPayload) : TrackingResult :=
  if d.status != some 1 then
    mkErrorResult "elta" "ELTA Courier" tn (eltaOuterErrorText d.result)
  else
    match d.result with
    | .text _ =>
      mkErrorResult "elta" "ELTA Courier" tn "Unexpected error: str object has no attribute get"
    | .missing => mkNotFoundResult "elta" "ELTA Courier" tn
    | .table entries =>
      let entry := match entries.find? (fun p => p.1 == tn) with
        | some p => p.2
        | none => {}
      match entry.status with
      | some 1 =>
        (match entry.result with
         | .evts l => eltaEventsResult tn d l
         | .missing => eltaEventsResult tn d []
         | .text s =>
           if s.data.isEmpty then eltaEventsResult tn d []
           else mkErrorResult "elta" "ELTA Courier" tn
             "Unexpected error: str object has no attribute get")
      | some 2 =>
        { success := true, tracking_number := tn, courier := "elta",
          courier_name := "ELTA Courier", status := eltaInnerStatusText entry.result,
          status_category := "unknown", events := [] }
      | _ => mkNotFoundResult "elta" "ELTA Courier" tn

/-- `ELTACourier.track`. -/
def eltaTrack (tracking_number : String) (b : HttpOutcome EltaPayload) : TrackingResult :=
  let tn := pyUpper (pyStrip tracking_number)
  httpTrack "elta" "ELTA Courier" tn (eltaParse tn) b

/-! ## ACS adapter (`couriers/acs.py`) -/

/-- `ACSCourier._parse_response`. -/
def acsParse (tn : String) (d : AcsPayload) : TrackingResult :=
  match d.items with
  | [] => mkNotFoundResult "acs" "ACS Courier" tn
  | parcel :: _ =>
    let events := parcel.statusHistory.map (fun e =>
      let dateStr := e.controlPointDate
      let hasT := pyIn "T" dateStr
      let parts := pySplit dateStr "T"
      { date := if hasT then parts.headD "" else dateStr,
        time := some (if hasT then pyTake (parts.getD 1 "") 5 else ""),
        location := e.controlPoint,
        status := e.description,
        status_translated := some (translate_status e.description ACS_STATUS_TRANSLATIONS)
        : TrackingEvent })
    let latest := events.head?
    let isDelivered := parcel.isDelivered
    let status := if isDelivered then "Delivered" else
      match latest with
      | some ev => ev.status_translated.getD ""
      | none => "Unknown"
    let category := if isDelivered then "delivered" else
      get_status_category status ["παραδόθηκε", "delivered"] ["διάκριση", "transit"]
        ["παρελήφθη", "received"]
    { success := true, tracking_number := tn, courier := "acs", courier_name := "ACS Courier",
      status := status, status_category := category, events := events, latest_event := latest,
      raw_data := some (.acs d) }

/-- Behaviour of one `ACSCourier.track` call: the first GET, the result of
`_fetch_token` (which catches all its own exceptions and returns `None` or a
token), and the retried GET used when the first returned 401 and a token was
found. -/
structure AcsBehavior where
  first : HttpOutcome AcsPayload
  token : Option String := none
  second : HttpOutcome AcsPayload := .exn "unused"

/-- `ACSCourier.track`: parse on 200; on 401 retry once with a scraped token
(parse on 200, otherwise fall through to `"HTTP error: 401"`, the f-string
reading the *outer* response); `"HTTP error: .."` for other statuses; the two
`except` clauses as error results. -/
def acsTrack (tracking_number : String) (b : AcsBehavior) : TrackingResult :=
  let tn := pyStrip tracking_number
  match b.first with
  | .clientError m => mkErrorResult "acs" "ACS Courier" tn m
  | .exn m => mkErrorResult "acs" "ACS Courier" tn ("Unexpected error: " ++ m)
  | .ok st p =>
    if st == 200 then acsParse tn p
    else if st == 401 then
      match b.token with
      | some _ =>
        (match b.second with
         | .ok st2 p2 =>
           if st2 == 200 then acsParse tn p2 else mkHttpErrorResult "acs" "ACS Courier" tn st
         | .clientError m => mkErrorResult "acs" "ACS Courier" tn m
         | .exn m => mkErrorResult "acs" "ACS Courier" tn ("Unexpected error: " ++ m))
      | none => mkHttpErrorResult "acs" "ACS Courier" tn st
    else mkHttpErrorResult "acs" "ACS Courier" tn st

/-! ## Box Now adapter (`couriers/boxnow.py`) -/

/-- `BoxNowCourier._parse_response`. -/
def boxnowParse (tn : String) (d : BoxPayload) : TrackingResult :=
  match d.data with
  | [] => mkNotFoundResult "box_now" "Box Now" tn
  | parcel :: _ =>
    let events := parcel.events.map (fun e =>
      let ct := e.createTime
      let hasT := pyIn "T" ct
      let parts := pySplit ct "T"
      { date := if hasT then parts.headD "" else ct,
        time := some (if hasT then pyTake (parts.getD 1 "") 8 else ""),
        location := e.locationDisplayName,
        status := e.type,
        status_translated := some (tableGetD BOX_EVENT_TRANSLATIONS e.type)
        : TrackingEvent })
    let latest := events.head?
    let state := parcel.state
    let status := tableGetD BOX_EVENT_TRANSLATIONS state
    let category := if state == "delivered" then "delivered" else
      get_status_category status ["delivered"] ["depot", "destination"] ["new"]
    { success := true, tracking_number := tn, courier := "box_now", courier_name := "Box Now",
      status := status, status_category := category, events := events, latest_event := latest,
      raw_data := some (.boxnow d) }

/-- `BoxNowCourier.track`. -/
def boxnowTrack (tracking_number : String) (b : HttpOutcome BoxPayload) : TrackingResult :=
  let tn := pyStrip tracking_number
  httpTrack "box_now" "Box Now" tn (boxnowParse tn) b

/-! ## Geniki adapter (`couriers/geniki.py`) -/

/-- `GenikiCourier._parse_html`. -/
def genikiParse (tn : String) (doc : GenikiDoc) : TrackingResult :=
  if doc.hasEmptyText then mkNotFoundResult "geniki" "Geniki Taxydromiki" tn
  else
    let events := doc.checkpoints.map (fun cp =>
      let status := match cp.status with | some t => pyStrip t | none => ""
      let location := match cp.location with | some t => pyStrip t | none => ""
      let dateText := match cp.date with | some t => pyStrip t | none => ""
      let date := if pyIn ", " dateText then (pySplit dateText ", ").getLastD "" else dateText
      let time := match cp.time with | some t => pyStrip t | none => ""
      { date := date, time := some time, location := location, status := status,
        status_translated := some (translate_status status GENIKI_STATUS_TRANSLATIONS)
        : TrackingEvent })
    let latest := events.head?
    let status := match latest with
      | some ev => ev.status_translated.getD ""
      | none => "Unknown"
    let category := get_status_category status
      ["παραδοσ", "delivered"] ["μεταφορ", "transit"] ["παραλαβ", "picked"]
    { success := true, tracking_number := tn, courier := "geniki",
      courier_name := "Geniki Taxydromiki", status := status, status_category := category,
      events := events, latest_event := latest }

/-- `GenikiCourier.track`. -/
def genikiTrack (tracking_number : String) (b : HttpOutcome GenikiDoc) : TrackingResult :=
  let tn := pyUpper (pyStrip tracking_number)
  httpTrack "geniki" "Geniki Taxydromiki" tn (genikiParse tn) b

/-! ## SpeedEx adapter (`couriers/speedex.py`) -/

/-- One card of the SpeedEx timeline.  The `date_time.split(" στις ")`
two-element unpacking raises `ValueError` when the split does not yield
exactly two parts; that exception is propagated (as `Except.error`) to the
generic handler of `track`. -/
def speedexCardEvent (card : SpeedexCard) : Except String TrackingEvent :=
  let status := match card.title with | some t => pyStrip t | none => ""
  let infoText := match card.info with | some t => pyStrip t | none => ""
  let translated := translate_status status SPEEDEX_STATUS_TRANSLATIONS
  if infoText == "" then
    .ok { date := "", time := some "", location := "", status := status,
          status_translated := some translated }
  else
    let parts := pySplit infoText ", "
    if decide (2 ≤ parts.length) then
      let location := parts.headD ""
      let dateTime := parts.getD 1 ""
      if pyIn "στις" dateTime then
        match pySplit dateTime " στις " with
        | [d, t] =>
          .ok { date := pyStrip d, time := some (pyStrip t), location := location,
                status := status, status_translated := some translated }
        | l =>
          if decide (l.length < 2) then .error "not enough values to unpack (expected 2)"
          else .error "too many values to unpack (expected 2)"
      else
        .ok { date := dateTime, time := some "", location := location, status := status,
              status_translated := some translated }
    else
      .ok { date := "", time := some "", location := "", status := status,
            status_translated := some translated }

/-- The event loop of `SpeedExCourier._parse_html`. -/
def speedexEvents : List SpeedexCard → Except String (List TrackingEvent)
  | [] => .ok []
  | card :: rest =>
    match speedexCardEvent card with
    | .error m => .error m
    | .ok ev =>
      match speedexEvents rest with
      | .error m => .error m
      | .ok evs => .ok (ev :: evs)

/-- `SpeedExCourier._parse_html`. -/
def speedexParse (tn : String) (doc : SpeedexDoc) : TrackingResult :=
  if doc.hasAlertWarning then mkNotFoundResult "speedex" "SpeedEx" tn
  else
    match speedexEvents doc.cards with
    | .error m => mkErrorResult "speedex" "SpeedEx" tn ("Unexpected error: " ++ m)
    | .ok events =>
      let latest := events.head?
      let status := match latest with
        | some ev => ev.status_translated.getD ""
        | none => "Unknown"
      let isDelivered := events.any (fun e => pyUpper e.status == "Η ΑΠΟΣΤΟΛΗ ΠΑΡΑΔΟΘΗΚΕ")
      let category := if isDelivered then "delivered" else
        get_status_category status ["παραδόθηκ", "delivered"] ["μεταφορ", "transit"]
          ["παραλαβή", "picked"]
      { success := true, tracking_number := tn, courier := "speedex", courier_name := "SpeedEx",
        status := status, status_category := category, events := events, latest_event := latest }

/-- `SpeedExCourier.track`. -/
def speedexTrack (tracking_number : String) (b : HttpOutcome SpeedexDoc) : TrackingResult :=
  let tn := pyUpper (pyStrip tracking_number)
  httpTrack "speedex" "SpeedEx" tn (speedexParse tn) b

/-! ## Courier Center adapter (`couriers/courier_center.py`) -/

/-- `CourierCenterCourier._parse_html`. -/
def ccParse (tn : String) (doc : CCDoc) : TrackingResult :=
  if doc.hasError then mkNotFoundResult "courier_center" "Courier Center" tn
  else
    let events := (doc.rows.drop 1).filterMap (fun row =>
      let date := match row.date with | some t => pyStrip t | none => ""
      if date == "" then none
      else
        let time := match row.time with | some t => pyStrip t | none => ""
        let location := match row.area with | some t => pyStrip t | none => ""
        let status := match row.action with | some t => pyStrip t | none => ""
        some { date := date, time := some time, location := location, status := status,
               status_translated := some (translate_status status CC_STATUS_TRANSLATIONS)
               : TrackingEvent })
    let latest := events.head?
    let status := match latest with
      | some ev => ev.status_translated.getD ""
      | none => "Unknown"
    let isDelivered := match doc.statusText with
      | some t => pyIn "DeliveryCompleted" t
      | none => false
    let category := if isDelivered then "delivered" else
      get_status_category status ["deliverycompleted", "delivered"] ["intransit", "transit"]
        ["received", "new"]
    { success := true, tracking_number := tn, courier := "courier_center",
      courier_name := "Courier Center", status := status, status_category := category,
      events := events, latest_event := latest }

/-- `CourierCenterCourier.track`. -/
def ccTrack (tracking_number : String) (b : HttpOutcome CCDoc) : TrackingResult :=
  let tn := pyUpper (pyStrip tracking_number)
  httpTrack "courier_center" "Courier Center" tn (ccParse tn) b

/-! ## Registry and orchestrator (`couriers/__init__.py`)

`BaseCourier` declares both `track` and `matches_tracking_number` as
`@abstractmethod`.  Every adapter overrides `track`, but only `ELTACourier`
and `BoxNowCourier` override `matches_tracking_number`; the other four
classes therefore keep a non-empty `__abstractmethods__` set, and Python's
ABC machinery raises `TypeError` when `courier_class()` is evaluated for
them.  A registry entry carries that fact, and the sweep model propagates
the instantiation `TypeError` as `Except.error` because the
`courier = courier_class()` call in `track_with_auto_detect` sits outside
any `try` block. -/

/-- One adapter class of the registry. -/
structure CourierClass where
  code : String
  pyName : String
  courierName : String
  implementsMatches : Bool

/-- `cls()` succeeds iff all abstract methods are overridden; `track` always
is, so only `matches_tracking_number` matters. -/
def instantiable (c : CourierClass) : Bool := c.implementsMatches

/-- `ELTACourier`. -/
def eltaClass : CourierClass := ⟨"elta", "ELTACourier", "ELTA Courier", true⟩

/-- `ACSCourier` (no `matches_tracking_number` override). -/
def acsClass : CourierClass := ⟨"acs", "ACSCourier", "ACS Courier", false⟩

/-- `SpeedExCourier` (no `matches_tracking_number` override). -/
def speedexClass : CourierClass := ⟨"speedex", "SpeedExCourier", "SpeedEx", false⟩

/-- `BoxNowCourier`. -/
def boxnowClass : CourierClass := ⟨"box_now", "BoxNowCourier", "Box Now", true⟩

/-- `GenikiCourier` (no `matches_tracking_number` override). -/
def genikiClass : CourierClass := ⟨"geniki", "GenikiCourier", "Geniki Taxydromiki", false⟩

/-- `CourierCenterCourier` (no `matches_tracking_number` override). -/
def ccClass : CourierClass := ⟨"courier_center", "CourierCenterCourier", "Courier Center", false⟩

/-- `COURIER_REGISTRY` in dict insertion order. -/
def COURIER_REGISTRY : List CourierClass :=
  [eltaClass, acsClass, speedexClass, boxnowClass, genikiClass, ccClass]

/-- `MAX_RETRIES`. -/
def MAX_RETRIES : Nat := 3

/-- Trace of one `_track_with_retry` run: the returned result, the number of
`courier.track` calls made, and the number of backoff sleeps taken. -/
structure RetryTrace where
  result : TrackingResult
  calls : Nat
  delays : Nat

/-- The acceptance test of `_track_with_retry`:
`success and status not in ["Not Found", "Error"] and
(events or status not in ["Unknown", ""])`. -/
def retryAccepts (r : TrackingResult) : Bool :=
  r.success && !(r.status == "Not Found") && !(r.status == "Error")
    && (!r.events.isEmpty || !(r.status == "Unknown" || r.status == ""))

/-- The confident-negative test of `_track_with_retry`:
`success and status == "Not Found"`. -/
def retryIsNotFound (r : TrackingResult) : Bool :=
  r.success && r.status == "Not Found"

/-- The synthesized result returned when the loop of `_track_with_retry`
exhausts (`f"Failed after {max_retries} attempts: {str(last_error)}"`;
`str(None)` is `"None"`). -/
def failedResult (cls : CourierClass) (tn : String) (maxRetries : Nat)
    (lastError : Option String) : TrackingResult :=
  let lastText := match lastError with | some m => m | none => "None"
  mkErrorResult cls.code cls.courierName tn
    ("Failed after " ++ toString maxRetries ++ " attempts: " ++ lastText)

/-- The attempt loop of `_track_with_retry`.  `remaining` counts the loop
iterations left (the Python guard `attempt < max_retries - 1` is
`remaining ≠ 0` after the current iteration is taken off), `calls` indexes
the behaviour stream, and a raised exception updates `last_error` and — on a
non-final attempt — takes a backoff sleep. -/
def retryGo (cls : CourierClass) (tn : String) (beh : Nat → Except String TrackingResult)
    (maxRetries : Nat) : Nat → Nat → Option String → Nat → RetryTrace
  | 0, calls, lastError, delays => ⟨failedResult cls tn maxRetries lastError, calls, delays⟩
  | remaining + 1, calls, lastError, delays =>
    match beh calls with
    | .ok r =>
      if retryAccepts r then ⟨r, calls + 1, delays⟩
      else if retryIsNotFound r then ⟨r, calls + 1, delays⟩
      else if remaining == 0 then ⟨r, calls + 1, delays⟩
      else retryGo cls tn beh maxRetries remaining (calls + 1) lastError (delays + 1)
    | .error e =>
      if remaining == 0 then retryGo cls tn beh maxRetries remaining (calls + 1) (some e) delays
      else retryGo cls tn beh maxRetries remaining (calls + 1) (some e) (delays + 1)

/-- `_track_with_retry`, with its full trace.  `beh n` is the outcome of the
`n`-th `courier.track` call (a result, or a raised exception's message). -/
def trackWithRetryTrace (cls : CourierClass) (tn : String)
    (beh : Nat → Except String TrackingResult) (maxRetries : Nat) : RetryTrace :=
  retryGo cls tn beh maxRetries maxRetries 0 none 0

/-- `_track_with_retry` with the default `max_retries = MAX_RETRIES`. -/
def trackWithRetry (cls : CourierClass) (tn : String)
    (beh : Nat → Except String TrackingResult) : TrackingResult :=
  (trackWithRetryTrace cls tn beh MAX_RETRIES).result

/-- The acceptance test of the sweep in `track_with_auto_detect`:
`success and status not in ["Not Found", "Error"]`. -/
def sweepAccepts (r : TrackingResult) : Bool :=
  r.success && !(r.status == "Not Found" || r.status == "Error")

/-- The synthesized result of `track_with_auto_detect` when the registry is
empty (`last_result` stayed `None`); note it carries the *original*
tracking number, not the normalized one. -/
def allCouriersFailedResult (tracking_number : String) : TrackingResult :=
  { success := false, tracking_number := tracking_number, courier := "unknown",
    courier_name := "Unknown Courier", status := "Error", status_category := "error",
    events := [], error_message := some "All couriers failed to track this number" }

/-- The registry loop of `track_with_auto_detect`.  Each iteration first
evaluates `courier_class()`; for a class with unimplemented abstract methods
that raises `TypeError`, which nothing catches. -/
def sweepGo (tn0 tn : String) (behs : String → Nat → Except String TrackingResult) :
    List CourierClass → Option TrackingResult → Except String TrackingResult
  | [], last =>
    .ok (match last with | some r => r | none => allCouriersFailedResult tn0)
  | cls :: rest, _ =>
    if instantiable cls then
      let r := trackWithRetry cls tn (behs cls.code)
      if sweepAccepts r then .ok r
      else sweepGo tn0 tn behs rest (some r)
    else .error ("TypeError: cannot instantiate abstract class " ++ cls.pyName)

/-- `track_with_auto_detect`.  `behs code n` is the outcome of the `n`-th
`track` call of the adapter with the given courier code. -/
def track_with_auto_detect (tracking_number : String)
    (behs : String → Nat → Except String TrackingResult) : Except String TrackingResult :=
  let tn := pyUpper (pyStrip tracking_number)
  sweepGo tracking_number tn behs COURIER_REGISTRY none

/-! ## Stated invariants and concrete fixtures used by the theorems -/

/-- The `latest_event` round-trip invariant of the spec: absent iff `events`
is empty, and equal to `events[0]` when non-empty (both captured by
`latest_event = events.head?`). -/
def latestInvariant (r : TrackingResult) : Prop :=
  (r.latest_event = none ↔ r.events = []) ∧ r.latest_event = r.events.head?

/-- Every result leaving an adapter either has `success = True` or carries
the literal status `"Error"` (helper shape for the `"Not Found"` claim). -/
def successOrError (r : TrackingResult) : Prop :=
  r.success = true ∨ r.status = "Error"

/-- ELTA behaviour: the endpoint answers HTTP 500. -/
def eltaHttp500Beh : HttpOutcome EltaPayload := .ok 500 {}

/-- ELTA behaviour: HTTP 200 whose payload has outer `status == 1` but no
entry for the queried number — parsed as a `"Not Found"` result. -/
def eltaNotFoundBeh : HttpOutcome EltaPayload := .ok 200 { status := some 1, result := .table [] }

/-- ELTA behaviour: HTTP 200 with one event for `"SE101046219GR"`. -/
def eltaOneEventBeh : HttpOutcome EltaPayload :=
  .ok 200
    { status := some 1,
      result := .table
        [("SE101046219GR",
          { status := some 1,
            result := .evts [{ date := "15-02-2026", time := "14:30", place := "ΑΘΗΝΑ",
                               status := "Αποστολή παραδόθηκε" }] })] }

/-- Sweep behaviours for the C1 scenario: ELTA's endpoint answers HTTP 500 on
every attempt; no later adapter is ever reached. -/
def c1Behs : String → Nat → Except String TrackingResult :=
  fun code _ =>
    if code == "elta" then .ok (eltaTrack "9876543210" eltaHttp500Beh)
    else .error "unreached adapter"

/-- Sweep behaviours for the C3 scenario: ELTA confidently reports
`"Not Found"`; the next adapter would succeed but is never reached. -/
def c3Behs : String → Nat → Except String TrackingResult :=
  fun code _ =>
    if code == "elta" then .ok (eltaTrack "1234567890" eltaNotFoundBeh)
    else .error "unreached adapter"

/-- A confidently-positive adapter result (retry fixture). -/
def c2OkRes : TrackingResult :=
  { success := true, tracking_number := "1234567890", courier := "acs",
    courier_name := "ACS Courier", status := "Delivered", status_category := "delivered",
    events := [] }

/-- A `"Not Found"` adapter result (retry fixture). -/
def c2NfRes : TrackingResult := mkNotFoundResult "acs" "ACS Courier" "1234567890"

/-- Retry behaviour: immediate success. -/
def c2BehOk : Nat → Except String TrackingResult := fun _ => .ok c2OkRes

/-- Retry behaviour: immediate `"Not Found"`. -/
def c2BehNf : Nat → Except String TrackingResult := fun _ => .ok c2NfRes

/-- Retry behaviour: two raised exceptions, then success. -/
def c2BehEES : Nat → Except String TrackingResult :=
  fun n => if decide (n < 2) then .error "boom" else .ok c2OkRes

/-- Retry behaviour: every attempt raises. -/
def c2BehEEE : Nat → Except String TrackingResult := fun _ => .error "boom"

/-- ACS behaviour: HTTP 200 whose single parcel's one `statusHistory` event
carries the description `"Η αποστολή δεν βρέθηκε"`, whose translation is the
literal `"Not Found"`. -/
def acsTranslatedNotFoundBeh : AcsBehavior :=
  { first := .ok 200
      { items := [{ statusHistory := [{ controlPointDate := "2025-01-15T10:00:00",
                                        controlPoint := "ΑΘΗΝΑ",
                                        description := "Η αποστολή δεν βρέθηκε" }],
                    isDelivered := false }] } }

/-- A small all-Greek-keyed table for the empty-string translation witness. -/
def c10Table : List (String × String) :=
  [("Παραλαβή", "Pickup"), ("Παράδοση", "Delivered")]

/-! ## Helper lemmas -/

theorem pyInL_nil_needle (l : List Char) : pyInL [] l = true := by
  cases l <;> simp [pyInL, List.isPrefixOf]

theorem pyLower_eq_empty_iff (s : String) : pyLower s = "" ↔ s = "" := by
  cases s with
  | mk l =>
    constructor
    · intro h
      have h' : String.mk (l.map Char.toLower) = String.mk [] := h
      have hl : l.map Char.toLower = [] := by injection h'
      have : l = [] := List.map_eq_nil_iff.mp hl
      rw [this]
    · intro h
      have h' : String.mk l = String.mk [] := h
      have : l = [] := by injection h'
      rw [this]
      rfl

theorem latestInvariant_of (r : TrackingResult) (h : r.latest_event = r.events.head?) :
    latestInvariant r := by
  refine ⟨?_, h⟩
  rw [h]
  exact List.head?_eq_none_iff

theorem elta_latestInv (tn : String) (b : HttpOutcome EltaPayload) :
    latestInvariant (eltaTrack tn b) := by
  apply latestInvariant_of
  cases b <;> simp only [eltaTrack, httpTrack, eltaParse] <;> (repeat' split) <;> rfl

theorem acsParse_latest (tn : String) (d : AcsPayload) :
    (acsParse tn d).latest_event = (acsParse tn d).events.head? := by
  simp only [acsParse]
  split
  · rfl
  · rfl

theorem acs_latestInv (tn : String) (b : AcsBehavior) :
    latestInvariant (acsTrack tn b) := by
  apply latestInvariant_of
  obtain ⟨first, token, second⟩ := b
  cases first <;> simp only [acsTrack] <;> (repeat' split) <;>
    first
      | rfl
      | apply acsParse_latest

theorem boxnow_latestInv (tn : String) (b : HttpOutcome BoxPayload) :
    latestInvariant (boxnowTrack tn b) := by
  apply latestInvariant_of
  cases b <;> simp only [boxnowTrack, httpTrack, boxnowParse] <;> (repeat' split) <;> rfl

theorem geniki_latestInv (tn : String) (b : HttpOutcome GenikiDoc) :
    latestInvariant (genikiTrack tn b) := by
  apply latestInvariant_of
  cases b <;> simp only [genikiTrack, httpTrack, genikiParse] <;> (repeat' split) <;> rfl

theorem speedex_latestInv (tn : String) (b : HttpOutcome SpeedexDoc) :
    latestInvariant (speedexTrack tn b) := by
  apply latestInvariant_of
  cases b <;> simp only [speedexTrack, httpTrack, speedexParse] <;> (repeat' split) <;> rfl

theorem cc_latestInv (tn : String) (b : HttpOutcome CCDoc) :
    latestInvariant (ccTrack tn b) := by
  apply latestInvariant_of
  cases b <;> simp only [ccTrack, httpTrack, ccParse] <;> (repeat' split) <;> rfl

theorem elta_successOrError (tn : String) (b : HttpOutcome EltaPayload) :
    successOrError (eltaTrack tn b) := by
  cases b <;> simp only [eltaTrack, httpTrack, eltaParse] <;> (repeat' split) <;>
    first
      | exact Or.inl rfl
      | exact Or.inr rfl

theorem acsParse_successOrError (tn : String) (d : AcsPayload) :
    successOrError (acsParse tn d) := by
  simp only [acsParse]
  split
  · exact Or.inl rfl
  · exact Or.inl rfl

theorem acs_successOrError (tn : String) (b : AcsBehavior) :
    successOrError (acsTrack tn b) := by
  obtain ⟨first, token, second⟩ := b
  cases first <;> simp only [acsTrack] <;> (repeat' split) <;>
    first
      | exact Or.inr rfl
      | apply acsParse_successOrError

theorem boxnow_successOrError (tn : String) (b : HttpOutcome BoxPayload) :
    successOrError (boxnowTrack tn b) := by
  cases b <;> simp only [boxnowTrack, httpTrack, boxnowParse] <;> (repeat' split) <;>
    first
      | exact Or.inl rfl
      | exact Or.inr rfl

theorem geniki_successOrError (tn : String) (b : HttpOutcome GenikiDoc) :
    successOrError (genikiTrack tn b) := by
  cases b <;> simp only [genikiTrack, httpTrack, genikiParse] <;> (repeat' split) <;>
    first
      | exact Or.inl rfl
      | exact Or.inr rfl

theorem speedex_successOrError (tn : String) (b : HttpOutcome SpeedexDoc) :
    successOrError (speedexTrack tn b) := by
  cases b <;> simp only [speedexTrack, httpTrack, speedexParse] <;> (repeat' split) <;>
    first
      | exact Or.inl rfl
      | exact Or.inr rfl

theorem cc_successOrError (tn : String) (b : HttpOutcome CCDoc) :
    successOrError (ccTrack tn b) := by
  cases b <;> simp only [ccTrack, httpTrack, ccParse] <;> (repeat' split) <;>
    first
      | exact Or.inl rfl
      | exact Or.inr rfl

theorem nf_success_of (r : TrackingResult) (hr : successOrError r)
    (h : r.status = "Not Found") : r.success = true := by
  rcases hr with hs | he
  · exact hs
  · rw [h] at he
    exact absurd he (by decide)

theorem retryAccepts_eq_true (r : TrackingResult) :
    retryAccepts r = true ↔
      (r.success = true ∧ r.status ≠ "Not Found" ∧ r.status ≠ "Error" ∧
       (r.events ≠ [] ∨ (r.status ≠ "Unknown" ∧ r.status ≠ ""))) := by
  simp [retryAccepts, and_assoc, List.isEmpty_iff]

theorem retryGo_calls_le (cls : CourierClass) (tn : String)
    (beh : Nat → Except String TrackingResult) (mr : Nat) :
    ∀ remaining calls le d,
      (retryGo cls tn beh mr remaining calls le d).calls ≤ calls + remaining := by
  intro remaining
  induction remaining with
  | zero => intro calls le d; simp [retryGo]
  | succ n ih =>
    intro calls le d
    simp only [retryGo]
    cases beh calls with
    | ok r =>
      by_cases h1 : retryAccepts r = true
      · simp [h1]
      · by_cases h2 : retryIsNotFound r = true
        · simp [h1, h2]
        · by_cases h3 : n = 0
          · simp [h1, h2, h3]
          · have hle := ih (calls + 1) le (d + 1)
            simp [h1, h2, h3]
            omega
    | error e =>
      by_cases h3 : n = 0
      · subst h3
        have hle := ih (calls + 1) (some e) d
        simp at hle ⊢
        omega
      · have hle := ih (calls + 1) (some e) (d + 1)
        simp [h3]
        omega

/-! ## Claim theorems -/

/-- C1.  The claim says `track`, `_track_with_retry` and
`track_with_auto_detect` never raise past their boundary.  The adapters do
convert every modelled network failure into an error `TrackingResult` (first
two conjuncts: ELTA turns an HTTP 500 into `status_category = "error"` with a
populated message), but `track_with_auto_detect` itself raises: after ELTA
fails, the loop evaluates `ACSCourier()`, and since `ACSCourier` never
overrides the abstract `matches_tracking_number`, Python's ABC machinery
raises `TypeError` outside any `try` block — the caller gets an exception,
not a `TrackingResult`. -/
theorem c1_sweep_raises_typeerror :
    (eltaTrack "9876543210" eltaHttp500Beh).status_category = "error"
  ∧ (eltaTrack "9876543210" eltaHttp500Beh).error_message = some "HTTP error: 500"
  ∧ track_with_auto_detect "9876543210" c1Behs
      = .error "TypeError: cannot instantiate abstract class ACSCourier" :=
  ⟨rfl, rfl, rfl⟩

/-- C2.  `_track_with_retry` calls `track` at most 3 times; a `success`
result with status outside {"Not Found", "Error"} and (events or a
non-placeholder status) is returned from the first attempt with no delays;
a `success`/"Not Found" result is returned immediately; after
[raise, raise, acceptable result] the result is returned with exactly 3
calls and 2 backoff delays; and when every attempt raises, the synthesized
`status_category = "error"` result wraps the last exception's message. -/
theorem c2_retry_policy (cls : CourierClass) (tn : String)
    (beh : Nat → Except String TrackingResult) :
    (trackWithRetryTrace cls tn beh 3).calls ≤ 3
  ∧ (∀ r, beh 0 = .ok r →
      r.success = true → r.status ≠ "Not Found" → r.status ≠ "Error" →
      (r.events ≠ [] ∨ (r.status ≠ "Unknown" ∧ r.status ≠ "")) →
      trackWithRetryTrace cls tn beh 3 = ⟨r, 1, 0⟩)
  ∧ (∀ r, beh 0 = .ok r → r.success = true → r.status = "Not Found" →
      trackWithRetryTrace cls tn beh 3 = ⟨r, 1, 0⟩)
  ∧ (∀ e1 e2 r, beh 0 = .error e1 → beh 1 = .error e2 → beh 2 = .ok r →
      r.success = true → r.status ≠ "Not Found" → r.status ≠ "Error" →
      (r.events ≠ [] ∨ (r.status ≠ "Unknown" ∧ r.status ≠ "")) →
      trackWithRetryTrace cls tn beh 3 = ⟨r, 3, 2⟩)
  ∧ (∀ e1 e2 e3, beh 0 = .error e1 → beh 1 = .error e2 → beh 2 = .error e3 →
      trackWithRetryTrace cls tn beh 3 = ⟨failedResult cls tn 3 (some e3), 3, 2⟩
      ∧ (failedResult cls tn 3 (some e3)).status_category = "error"
      ∧ (failedResult cls tn 3 (some e3)).error_message
          = some ("Failed after 3 attempts: " ++ e3)) := by
  refine ⟨?_, ?_, ?_, ?_, ?_⟩
  · have h := retryGo_calls_le cls tn beh 3 3 0 none 0
    simpa [trackWithRetryTrace] using h
  · intro r h hs hnf hne hev
    have ha : retryAccepts r = true := (retryAccepts_eq_true r).mpr ⟨hs, hnf, hne, hev⟩
    simp [trackWithRetryTrace, retryGo, h, ha]
  · intro r h hs hst
    have ha : retryAccepts r = false := by simp [retryAccepts, hst]
    have hn : retryIsNotFound r = true := by simp [retryIsNotFound, hs, hst]
    simp [trackWithRetryTrace, retryGo, h, ha, hn]
  · intro e1 e2 r h0 h1 h2 hs hnf hne hev
    have ha : retryAccepts r = true := (retryAccepts_eq_true r).mpr ⟨hs, hnf, hne, hev⟩
    simp [trackWithRetryTrace, retryGo, h0, h1, h2, ha]
  · intro e1 e2 e3 h0 h1 h2
    refine ⟨?_, rfl, rfl⟩
    simp [trackWithRetryTrace, retryGo, h0, h1, h2]

/-- Witness for C2 at concrete behaviour streams. -/
theorem c2_retry_policy_witness :
    trackWithRetryTrace acsClass "1234567890" c2BehOk 3 = ⟨c2OkRes, 1, 0⟩
  ∧ trackWithRetryTrace acsClass "1234567890" c2BehNf 3 = ⟨c2NfRes, 1, 0⟩
  ∧ trackWithRetryTrace acsClass "1234567890" c2BehEES 3 = ⟨c2OkRes, 3, 2⟩
  ∧ (trackWithRetryTrace acsClass "1234567890" c2BehEEE 3).result.error_message
      = some "Failed after 3 attempts: boom" := by
  refine ⟨?_, ?_, ?_, ?_⟩
  · exact (c2_retry_policy acsClass "1234567890" c2BehOk).2.1 c2OkRes rfl rfl
      (by decide) (by decide) (Or.inr ⟨by decide, by decide⟩)
  · exact (c2_retry_policy acsClass "1234567890" c2BehNf).2.2.1 c2NfRes rfl rfl rfl
  · exact (c2_retry_policy acsClass "1234567890" c2BehEES).2.2.2.1 "boom" "boom" c2OkRes
      rfl rfl rfl rfl (by decide) (by decide) (Or.inr ⟨by decide, by decide⟩)
  · have h := (c2_retry_policy acsClass "1234567890" c2BehEEE).2.2.2.2 "boom" "boom" "boom"
      rfl rfl rfl
    rw [h.1]
    exact h.2.2

/-- C3.  The claim says the sweep iterates every registered adapter and
returns the first confidently-positive result (or the last result).  On the
shipped registry this fails: ELTA confidently answers `"Not Found"` (first
two conjuncts), so the loop advances to the second registry entry and
evaluates `ACSCourier()`, which raises `TypeError` because the class leaves
`matches_tracking_number` abstract — the sweep never reaches the remaining
adapters and returns no result at all. -/
theorem c3_sweep_not_found_then_crash :
    (eltaTrack "1234567890" eltaNotFoundBeh).status = "Not Found"
  ∧ (eltaTrack "1234567890" eltaNotFoundBeh).success = true
  ∧ track_with_auto_detect "1234567890" c3Behs
      = .error "TypeError: cannot instantiate abstract class ACSCourier" :=
  ⟨rfl, rfl, rfl⟩

/-- C4.  Every result an adapter's `track` can produce, and both synthesized
orchestrator results, satisfy the round-trip invariant: `latest_event` is
`none` iff `events` is empty, and `latest_event = events.head?` (so it equals
`events[0]` whenever events exist). -/
theorem c4_latest_event_invariant :
    (∀ tn b, latestInvariant (eltaTrack tn b))
  ∧ (∀ tn b, latestInvariant (acsTrack tn b))
  ∧ (∀ tn b, latestInvariant (boxnowTrack tn b))
  ∧ (∀ tn b, latestInvariant (speedexTrack tn b))
  ∧ (∀ tn b, latestInvariant (genikiTrack tn b))
  ∧ (∀ tn b, latestInvariant (ccTrack tn b))
  ∧ (∀ cls tn n le, latestInvariant (failedResult cls tn n le))
  ∧ (∀ tn, latestInvariant (allCouriersFailedResult tn)) :=
  ⟨elta_latestInv, acs_latestInv, boxnow_latestInv, speedex_latestInv,
   geniki_latestInv, cc_latestInv,
   fun _ _ _ _ => latestInvariant_of _ rfl,
   fun _ => latestInvariant_of _ rfl⟩

/-- C5 counterexample.  The claim says `status = "Not Found"` implies an
empty event list; but when the ACS payload contains a parcel whose latest
event description is `"Η αποστολή δεν βρέθηκε"`, its translation is the
literal `"Not Found"`, which becomes the result status while the parsed
event list is non-empty. -/
theorem c5_counterexample :
    (acsTrack "1234567890" acsTranslatedNotFoundBeh).status = "Not Found"
  ∧ (acsTrack "1234567890" acsTranslatedNotFoundBeh).success = true
  ∧ (acsTrack "1234567890" acsTranslatedNotFoundBeh).events.length = 1 :=
  ⟨rfl, rfl, rfl⟩

/-- C5 (amended).  For every adapter and every modelled behaviour, a result
with `status = "Not Found"` has `success = True` (the events list need not be
empty, as the counterexample shows). -/
theorem c5_not_found_implies_success :
    (∀ tn b, (eltaTrack tn b).status = "Not Found" → (eltaTrack tn b).success = true)
  ∧ (∀ tn b, (acsTrack tn b).status = "Not Found" → (acsTrack tn b).success = true)
  ∧ (∀ tn b, (boxnowTrack tn b).status = "Not Found" → (boxnowTrack tn b).success = true)
  ∧ (∀ tn b, (speedexTrack tn b).status = "Not Found" → (speedexTrack tn b).success = true)
  ∧ (∀ tn b, (genikiTrack tn b).status = "Not Found" → (genikiTrack tn b).success = true)
  ∧ (∀ tn b, (ccTrack tn b).status = "Not Found" → (ccTrack tn b).success = true) :=
  ⟨fun tn b h => nf_success_of _ (elta_successOrError tn b) h,
   fun tn b h => nf_success_of _ (acs_successOrError tn b) h,
   fun tn b h => nf_success_of _ (boxnow_successOrError tn b) h,
   fun tn b h => nf_success_of _ (speedex_successOrError tn b) h,
   fun tn b h => nf_success_of _ (geniki_successOrError tn b) h,
   fun tn b h => nf_success_of _ (cc_successOrError tn b) h⟩

/-- Witness for the amended C5 at a concrete not-found ELTA behaviour. -/
theorem c5_not_found_implies_success_witness :
    (eltaTrack "1234567890" eltaNotFoundBeh).success = true :=
  c5_not_found_implies_success.1 "1234567890" eltaNotFoundBeh rfl

/-- C6.  `translate_status` behaviour: the value of the first exact
case-insensitive key match wins; failing that, the value of the first key
related by case-insensitive substring containment in either direction;
failing both, the input is returned unchanged — and translating again is a
no-op on such unmapped strings. -/
theorem c6_translate_spec (status : String) (t : List (String × String)) :
    (∀ p, t.find? (exactHit (pyLower status)) = some p →
        translate_status status t = p.2)
  ∧ (t.find? (exactHit (pyLower status)) = none →
      ∀ p, t.find? (partialHit (pyLower status)) = some p →
        translate_status status t = p.2)
  ∧ ((∀ p ∈ t, exactHit (pyLower status) p = false ∧ partialHit (pyLower status) p = false) →
      translate_status status t = status
      ∧ translate_status (translate_status status t) t = translate_status status t) := by
  refine ⟨?_, ?_, ?_⟩
  · intro p h
    simp [translate_status, h]
  · intro h1 p h2
    simp [translate_status, h1, h2]
  · intro h
    have he : t.find? (exactHit (pyLower status)) = none :=
      List.find?_eq_none.mpr (fun x hx => by simp [(h x hx).1])
    have hp : t.find? (partialHit (pyLower status)) = none :=
      List.find?_eq_none.mpr (fun x hx => by simp [(h x hx).2])
    have h0 : translate_status status t = status := by simp [translate_status, he, hp]
    exact ⟨h0, by rw [h0]; exact h0⟩

/-- Witness for C6: an exact hit, a substring-fallback hit, and an unmapped
string returned unchanged. -/
theorem c6_translate_spec_witness :
    translate_status "Αποστολή παραδόθηκε" ELTA_STATUS_TRANSLATIONS = "Delivered"
  ∧ translate_status "Η αποστολή παραδόθηκε στον παραλήπτη" ACS_STATUS_TRANSLATIONS
      = "Delivered"
  ∧ translate_status "Package handed to courier" ELTA_STATUS_TRANSLATIONS
      = "Package handed to courier" := by
  refine ⟨?_, ?_, ?_⟩
  · exact (c6_translate_spec "Αποστολή παραδόθηκε" ELTA_STATUS_TRANSLATIONS).1
      ("Αποστολή παραδόθηκε", "Delivered") (by decide)
  · exact (c6_translate_spec "Η αποστολή παραδόθηκε στον παραλήπτη"
      ACS_STATUS_TRANSLATIONS).2.1 (by decide) ("Η αποστολή παραδόθηκε", "Delivered")
      (by decide)
  · exact ((c6_translate_spec "Package handed to courier" ELTA_STATUS_TRANSLATIONS).2.2
      (by decide)).1

/-- C7.  `get_status_category` priority: any delivered-keyword substring
forces `"delivered"` regardless of the other keyword lists; with no
delivered hit, a transit hit gives `"in_transit"`; then a created hit gives
`"created"`; with no hit at all, `"unknown"`. -/
theorem c7_category_priority (status : String) (delivered inTransit created : List String) :
    (delivered.any (kwHit (pyLower status)) = true →
        get_status_category status delivered inTransit created = "delivered")
  ∧ (delivered.any (kwHit (pyLower status)) = false →
     inTransit.any (kwHit (pyLower status)) = true →
        get_status_category status delivered inTransit created = "in_transit")
  ∧ (delivered.any (kwHit (pyLower status)) = false →
     inTransit.any (kwHit (pyLower status)) = false →
     created.any (kwHit (pyLower status)) = true →
        get_status_category status delivered inTransit created = "created")
  ∧ (delivered.any (kwHit (pyLower status)) = false →
     inTransit.any (kwHit (pyLower status)) = false →
     created.any (kwHit (pyLower status)) = false →
        get_status_category status delivered inTransit created = "unknown") := by
  refine ⟨?_, ?_, ?_, ?_⟩ <;> intros <;> simp [get_status_category, *]

/-- Witness for C7: a status matching both a delivered and an in-transit
keyword is still `"delivered"`; without the delivered hit it is
`"in_transit"`. -/
theorem c7_category_priority_witness :
    get_status_category "Delivered while in transit" ["delivered"] ["transit"] []
      = "delivered"
  ∧ get_status_category "Now in transit" ["delivered"] ["transit"] [] = "in_transit" := by
  constructor
  · exact (c7_category_priority "Delivered while in transit" ["delivered"] ["transit"] []).1
      (by decide)
  · exact (c7_category_priority "Now in transit" ["delivered"] ["transit"] []).2.1
      (by decide) (by decide)

/-- C8.  `"XX123456789GR"` matches exactly one `TRACKING_PATTERNS` entry
(ELTA's `^[A-Z]{2}\d{9}GR$`), yet `detect_courier` returns no match: its
ELTA branch only tests the `SE`/`EL` prefixes.  The repository's own test
suites expect `detect_courier("XX123456789GR") == "elta"`. -/
theorem c8_detect_misses_unique_elta_match :
    couriersMatching "XX123456789GR" = ["elta"]
  ∧ detect_courier "XX123456789GR" = none :=
  ⟨rfl, rfl⟩

/-- C9 counterexample.  The claim says the BoxNow adapter's matches test
returns true for every bare 10-digit number; `BoxNowCourier.
matches_tracking_number` deliberately returns `False` for `"1234567890"`
(only `BN`-prefixed inputs match), as its own comment and the repository
tests state. -/
theorem c9_boxnow_matches_rejects_ten_digits :
    boxnowMatchesTrackingNumber "1234567890" = false :=
  rfl

/-- C9 (amended).  For every (canonical) bare 10-digit tracking number, the
declared `PATTERNS` regex sets of ACS, BoxNow, CourierCenter and Geniki all
match — the formats do overlap — but the BoxNow matches *test* returns
false, and ACS, SpeedEx, Geniki and CourierCenter do not implement the
matches test at all (the abstract method is left unimplemented). -/
theorem c9_pattern_overlap (s : String) (h : patDigits 10 10 s = true) :
    (acsClassPatterns s = true ∧ boxnowClassPatterns s = true
      ∧ ccClassPatterns s = true ∧ genikiClassPatterns s = true)
  ∧ boxnow_matches_normalized s = false
  ∧ (acsClass.implementsMatches = false ∧ speedexClass.implementsMatches = false
      ∧ genikiClass.implementsMatches = false ∧ ccClass.implementsMatches = false) := by
  have h' := h
  simp only [patDigits, Bool.and_eq_true, decide_eq_true_eq] at h'
  obtain ⟨⟨hlo, hhi⟩, hdig⟩ := h'
  have h12 : s.data.length ≤ 12 := by omega
  have hlo' : 10 ≤ s.length := hlo
  have hhi' : s.length ≤ 10 := hhi
  have h12' : s.length ≤ 12 := h12
  refine ⟨⟨?_, ?_, ?_, ?_⟩, ?_, rfl, rfl, rfl, rfl⟩
  · exact h
  · simp [boxnowClassPatterns, patDigits, hlo, hhi, hdig, hlo', hhi']
  · simp [ccClassPatterns, patDigits, hlo, h12, hdig, hlo', h12']
  · simp [genikiClassPatterns, patDigits, hlo, h12, hdig, hlo', h12']
  · cases hb : (s.data.take 2 == "BN".data) with
    | false => simp [boxnow_matches_normalized, patPreDigits, hb]
    | true =>
      exfalso
      have heq : s.data.take 2 = "BN".data := eq_of_beq hb
      have hmem : 'B' ∈ s.data := by
        apply List.take_subset 2 s.data
        rw [heq]
        decide
      have hBdig := List.all_eq_true.mp hdig 'B' hmem
      exact absurd hBdig (by decide)

/-- Witness for the amended C9 at `"1234567890"`. -/
theorem c9_pattern_overlap_witness :
    (acsClassPatterns "1234567890" = true ∧ boxnowClassPatterns "1234567890" = true
      ∧ ccClassPatterns "1234567890" = true ∧ genikiClassPatterns "1234567890" = true)
  ∧ boxnow_matches_normalized "1234567890" = false
  ∧ (acsClass.implementsMatches = false ∧ speedexClass.implementsMatches = false
      ∧ genikiClass.implementsMatches = false ∧ ccClass.implementsMatches = false) :=
  c9_pattern_overlap "1234567890" (by decide)

/-- C10 counterexample.  The claim says `translate_status ""` returns the
first key's value of every non-empty table; with the table
`[("a", "A"), ("", "B")]` the empty *key* wins through the exact-match loop,
so the result is `"B"`, not the first key's value `"A"`. -/
theorem c10_counterexample :
    translate_status "" [("a", "A"), ("", "B")] = "B"
  ∧ translate_status "" [("a", "A"), ("", "B")] ≠ "A" := by
  refine ⟨rfl, ?_⟩
  decide

/-- C10 (amended).  For every non-empty table all of whose keys are
non-empty, translating the empty string returns the first key's value: no
exact match can fire, and the empty string is a substring of every key, so
the first entry wins the partial-match loop. -/
theorem c10_empty_string_first_value (t : List (String × String)) (h1 : t ≠ [])
    (h2 : ∀ p ∈ t, p.1 ≠ "") :
    translate_status "" t = (t.head h1).2 := by
  match t, h1 with
  | p :: rest, _ =>
    have hlow : pyLower "" = "" := rfl
    have he : (p :: rest).find? (exactHit (pyLower "")) = none := by
      apply List.find?_eq_none.mpr
      intro q hq
      have hq1 : q.1 ≠ "" := h2 q hq
      simp only [exactHit, hlow]
      intro hcon
      exact hq1 ((pyLower_eq_empty_iff q.1).mp (eq_of_beq hcon))
    have hhead : partialHit (pyLower "") p = true := by
      simp only [partialHit, hlow]
      have : pyIn "" (pyLower p.1) = true := pyInL_nil_needle (pyLower p.1).data
      simp [this]
    have hp : (p :: rest).find? (partialHit (pyLower "")) = some p := by
      rw [List.find?_cons]
      simp [hhead]
    simp [translate_status, he, hp]

/-- Witness for the amended C10 at a concrete Greek-keyed table. -/
theorem c10_empty_string_first_value_witness :
    translate_status "" c10Table = "Pickup" :=
  c10_empty_string_first_value c10Table (by decide) (by decide)
